import Mathlib

/-!
Verification of the outbound request construction, validation and execution
pipeline of the suar-be HTTP proxy service (internal/service/http_proxy_service.go).

The Go code is shallowly embedded: pure computations become Lean functions,
the mutation of the caller-supplied DTO through its pointer becomes explicit
state passing (the validator returns the final state of the DTO alongside its
result), and the external effects (url.Parse, net.LookupIP, the construction
of the http.Request and the network round trip performed by http.Client.Do)
become oracle parameters describing their outcome.  Go's 64-bit signed integer
arithmetic on time.Duration values is modelled on Int with explicit reduction
modulo 2^64, since the multiplication in the timeout computation can overflow.
-/

namespace Suar

/-! ### Data model (internal/model/dto.go) -/

/-- model.DTORequest: the caller-supplied inbound request description.
Headers is a Go map from header name to the ordered slice of values; it is
rendered as an association list.  Body is an opaque byte payload.  Timeout is
a Go int (64-bit) number of milliseconds. -/
structure DTORequest where
  Method  : String
  URL     : String
  Headers : List (String × List String)
  Body    : List Nat
  Timeout : Int
deriving Repr, DecidableEq

/-- model.DTOResponse: the normalized response returned to the caller.
Duration and Timestamp are opaque instants/durations supplied by the clock. -/
structure DTOResponse where
  StatusCode : Int
  Duration   : Int
  Timestamp  : Int
  Size       : Int
  Headers    : List (String × List String)
  Body       : List Nat
  Error      : String
deriving Repr, DecidableEq

/-! ### net.IP (Go standard library, as used by isPrivateIP) -/

/-- net.IP is a byte slice, length 4 (IPv4) or 16 (IPv6). -/
abbrev IP := List Nat

/-- net.IP.To4: the 4-byte form of an IPv4 or IPv4-mapped-IPv6 address,
none otherwise. -/
def ipTo4 (ip : IP) : Option (List Nat) :=
  if ip.length = 4 then some ip
  else if ip.length = 16 ∧ (ip.take 10).all (· = 0)
      ∧ ip.get? 10 = some 255 ∧ ip.get? 11 = some 255 then
    some (ip.drop 12)
  else none

/-- The 16-byte IPv6 loopback address ::1. -/
def ipv6Loopback : IP := [0, 0, 0, 0, 0, 0, 0, 0, 0, 0, 0, 0, 0, 0, 0, 1]

/-- net.IP.IsLoopback. -/
def ipIsLoopback (ip : IP) : Bool :=
  match ipTo4 ip with
  | some ip4 => ip4.get? 0 = some 127
  | none => ip = ipv6Loopback

/-- net.IP.IsLinkLocalUnicast (169.254.0.0/16, fe80::/10). -/
def ipIsLinkLocalUnicast (ip : IP) : Bool :=
  match ipTo4 ip with
  | some ip4 => ip4.get? 0 = some 169 ∧ ip4.get? 1 = some 254
  | none =>
      ip.length = 16 ∧ ip.get? 0 = some 254
        ∧ Nat.land ((ip.get? 1).getD 0) 192 = 128

/-- net.IP.IsLinkLocalMulticast (224.0.0.0/24, ff02::/16). -/
def ipIsLinkLocalMulticast (ip : IP) : Bool :=
  match ipTo4 ip with
  | some ip4 => ip4.get? 0 = some 224 ∧ ip4.get? 1 = some 0 ∧ ip4.get? 2 = some 0
  | none =>
      ip.length = 16 ∧ ip.get? 0 = some 255
        ∧ Nat.land ((ip.get? 1).getD 0) 15 = 2

/-- isPrivateIP (http_proxy_service.go:50): loopback, link-local, or one of
the RFC1918 ranges 10.0.0.0/8, 172.16.0.0/12, 192.168.0.0/16. -/
def isPrivateIP (ip : IP) : Bool :=
  if ipIsLoopback ip ∨ ipIsLinkLocalMulticast ip ∨ ipIsLinkLocalUnicast ip then
    true
  else
    match ipTo4 ip with
    | some ip4 =>
        ip4.get? 0 = some 10
          ∨ (ip4.get? 0 = some 172 ∧ 16 ≤ (ip4.get? 1).getD 0 ∧ (ip4.get? 1).getD 0 ≤ 31)
          ∨ (ip4.get? 0 = some 192 ∧ ip4.get? 1 = some 168)
    | none => false

/-! ### Strings and header canonicalization (Go strings / net/textproto) -/

/-- strings.ToUpper, modelled on the ASCII alphabet (the only case mapping
the allow-listed methods and the deny-listed header names involve). -/
def stringToUpper (s : String) : String := String.mk (s.data.map Char.toUpper)

/-- textproto's validHeaderFieldByte: the RFC 7230 token characters,
given by byte value. -/
def validHeaderFieldByte (c : Nat) : Bool :=
  (48 ≤ c ∧ c ≤ 57) ∨ (97 ≤ c ∧ c ≤ 122) ∨ (65 ≤ c ∧ c ≤ 90)
    ∨ c = 33 ∨ c = 35 ∨ c = 36 ∨ c = 37 ∨ c = 38 ∨ c = 39 ∨ c = 42 ∨ c = 43
    ∨ c = 45 ∨ c = 46 ∨ c = 94 ∨ c = 95 ∨ c = 96 ∨ c = 124 ∨ c = 126

/-- The canonicalization loop of textproto.canonicalMIMEHeaderKey: upper-case
a letter at the start or after a hyphen, lower-case every other letter. -/
def canonChars : Bool → List Char → List Char
  | _, [] => []
  | up, c :: rest =>
      let c2 : Char :=
        if up then (if c.isLower then c.toUpper else c)
        else (if c.isUpper then c.toLower else c)
      c2 :: canonChars (c2 = '-') rest

/-- http.CanonicalHeaderKey / textproto.CanonicalMIMEHeaderKey: canonicalize
when every byte is a valid header-field byte, otherwise return the key
unchanged. -/
def canonicalHeaderKey (s : String) : String :=
  if s.data.all (fun c => validHeaderFieldByte c.toNat) then
    String.mk (canonChars true s.data)
  else s

/-! ### Constants and tables (http_proxy_service.go:18-47) -/

/-- maxResponseBodySize = 10 * 1024 * 1024 bytes. -/
def maxResponseBodySize : Nat := 10 * 1024 * 1024

/-- A Go time.Duration is an int64 count of nanoseconds. -/
def nanosecond : Int := 1

/-- time.Millisecond in nanoseconds. -/
def millisecond : Int := 1000000

/-- time.Second in nanoseconds. -/
def second : Int := 1000000000

/-- defaultRequestTimeout = 30 * time.Second. -/
def defaultRequestTimeout : Int := 30 * second

/-- maxRequestTimeout = 90 * time.Second. -/
def maxRequestTimeout : Int := 90 * second

/-- allowedMethods (http_proxy_service.go:24). -/
def allowedMethods (m : String) : Bool :=
  m = "GET" ∨ m = "POST" ∨ m = "PUT" ∨ m = "DELETE"
    ∨ m = "PATCH" ∨ m = "HEAD" ∨ m = "OPTIONS"

/-- blockedHeaders (http_proxy_service.go:42), keyed by canonical name. -/
def blockedHeaders (k : String) : Bool :=
  k = "Authorization" ∨ k = "Cookie" ∨ k = "Proxy-Authorization" ∨ k = "X-Forwarded-For"

/-! ### url.URL (as consumed by the validator) -/

/-- The outcome of url.Parse, restricted to the fields the service reads:
the scheme, the hostname (url.URL.Hostname()), and an opaque remainder
standing for user info, port, path and query. -/
structure URL where
  Scheme   : String
  Hostname : String
  Rest     : String
deriving Repr, DecidableEq

/-- OutboundRequest (http_proxy_service.go:34): the vetted request.
Timeout is a time.Duration (int64 nanoseconds). -/
structure OutboundRequest where
  Method  : String
  URL     : URL
  Headers : List (String × List String)
  Body    : List Nat
  Timeout : Int
deriving Repr, DecidableEq

/-- The error taxonomy of the service layer: every validator rejection wraps
ErrInvalidInput, Execute wraps ErrRequestTimeout on a deadline-exceeded
failure and returns a plain wrapped error otherwise. -/
inductive ProxyError where
  | invalidInput   (msg : String)
  | requestTimeout (msg : String)
  | executionError (msg : String)
deriving Repr, DecidableEq

/-! ### Go 64-bit signed arithmetic -/

/-- Reduce an integer to the two's-complement int64 value it denotes. -/
def int64Wrap (x : Int) : Int := (x + 2 ^ 63) % 2 ^ 64 - 2 ^ 63

/-- Go multiplication of two int64 values: wraps on overflow. -/
def int64Mul (x y : Int) : Int := int64Wrap (x * y)

/-! ### The validator: newOutboundRequest (http_proxy_service.go:63-121)

The Go function receives a *model.DTORequest and assigns to dto.Method
through the pointer before any check; the embedding therefore returns the
final state of the DTO alongside the result.  url.Parse and net.LookupIP are
passed in as oracles describing their outcome on each input string. -/

/-- The body of newOutboundRequest after the method upper-casing assignment
`dto.Method = strings.ToUpper(dto.Method)` has been applied to `dto`. -/
def newOutboundRequestBody
    (parseURL : String → Except String URL)
    (lookupIP : String → Except String (List IP))
    (dto : DTORequest) : DTORequest × Except ProxyError OutboundRequest :=
  if ¬ allowedMethods dto.Method then
    (dto, .error (.invalidInput ("invalid or unsupported HTTP method: " ++ dto.Method)))
  else if dto.URL = "" then
    (dto, .error (.invalidInput "URL cannot be empty"))
  else
    match parseURL dto.URL with
    | .error e => (dto, .error (.invalidInput ("failed to parse URL: " ++ e)))
    | .ok parsedURL =>
      if parsedURL.Scheme ≠ "http" ∧ parsedURL.Scheme ≠ "https" then
        (dto, .error (.invalidInput
          ("invalid URL scheme: " ++ parsedURL.Scheme ++ ". Only http and https are allowed")))
      else
        match lookupIP parsedURL.Hostname with
        | .error e => (dto, .error (.invalidInput ("could not resolve hostname: " ++ e)))
        | .ok ips =>
          if ips.any isPrivateIP then
            (dto, .error (.invalidInput "requests to private IP addresses are not allowed"))
          else
            let timeout : Int :=
              if dto.Timeout ≤ 0 then defaultRequestTimeout
              else int64Mul dto.Timeout millisecond
            if timeout > maxRequestTimeout then
              (dto, .error (.invalidInput "timeout exceeds the maximum allowed limit"))
            else
              (dto, .ok
                { Method := dto.Method
                  URL := parsedURL
                  Headers := dto.Headers.filter
                    (fun kv => ¬ blockedHeaders (canonicalHeaderKey kv.1))
                  Body := dto.Body
                  Timeout := timeout })

/-- newOutboundRequest: upper-case the method in place, then validate.
The first component of the result is the final state of the caller's DTO. -/
def newOutboundRequest
    (parseURL : String → Except String URL)
    (lookupIP : String → Except String (List IP))
    (dto : DTORequest) : DTORequest × Except ProxyError OutboundRequest :=
  newOutboundRequestBody parseURL lookupIP { dto with Method := stringToUpper dto.Method }

/-! ### The executor: Execute and response normalization
(http_proxy_service.go:153-224)

The network round trip is abstracted by oracle parameters: the outcome of
http.NewRequestWithContext and the outcome of http.Client.Do, and the clock
readings for the duration and the start timestamp.  The response body, read
through an io.LimitedReader, is modelled as the sequence of bytes the reader
yields followed by either end-of-stream or a read error. -/

/-- The target's response body as a byte stream: `data` is yielded in order,
after which the stream reports end-of-stream when `readErr` is none and the
given read error otherwise. -/
structure BodyStream where
  data    : List Nat
  readErr : Option String
deriving Repr, DecidableEq

/-- The http.Response fields the service reads. -/
structure HTTPResponse where
  StatusCode : Int
  Headers    : List (String × List String)
  Body       : BodyStream
deriving Repr, DecidableEq

/-- io.ReadAll over io.LimitedReader{R: body, N: limit}: the bytes read, the
error io.ReadAll returns (none on plain end-of-stream, and none once the
limit is reached, since the limited reader then reports EOF without touching
the underlying stream), and the final value of the reader's N field. -/
def readAllLimited (body : BodyStream) (limit : Nat) :
    List Nat × Option String × Nat :=
  let bytes := body.data.take limit
  let err := if limit ≤ body.data.length then none else body.readErr
  (bytes, err, limit - bytes.length)

/-- httpResponseToDTOResponse (http_proxy_service.go:192): copy status code
and headers, read the body through a 10 MiB LimitedReader, and flag
truncation in the Error field when the reader's budget is exhausted. -/
def httpResponseToDTOResponse (resp : HTTPResponse) (duration timestamp : Int) :
    DTOResponse :=
  let headers := resp.Headers
  let r := readAllLimited resp.Body maxResponseBodySize
  let base : DTOResponse :=
    { StatusCode := resp.StatusCode
      Duration := duration
      Timestamp := timestamp
      Size := 0
      Headers := headers
      Body := []
      Error := "" }
  match r.2.1 with
  | some e =>
      { base with Error := "failed to read response body: " ++ e, Size := 0, Body := [] }
  | none =>
      let filled := { base with Size := (r.1.length : Int), Body := r.1 }
      if r.2.2 ≤ 0 then
        { filled with Error := "response body truncated due to size limit" }
      else filled

/-- The outcome of a failed http.Client.Do call: whether the failure
satisfies errors.Is(err, context.DeadlineExceeded), and the description of
the original cause. -/
structure DoError where
  deadlineExceeded : Bool
  cause : String
deriving Repr, DecidableEq

/-- Execute (http_proxy_service.go:153): build the outbound http.Request
(outcome `mkRequestResult`), perform the call (outcome `doResult`), classify
a failure as a request timeout exactly when it is a deadline-exceeded error,
and normalize a successful response.  `duration` and `startTime` are the
clock readings time.Since(startTime) and startTime. -/
def Execute
    (mkRequestResult : Except String Unit)
    (doResult : Except DoError HTTPResponse)
    (outboundRequest : OutboundRequest)
    (duration startTime : Int) : Except ProxyError DTOResponse :=
  match mkRequestResult with
  | .error e =>
      .ok { StatusCode := 0
            Duration := duration
            Timestamp := startTime
            Size := 0
            Headers := []
            Body := []
            Error := "failed to create http request: " ++ e }
  | .ok _ =>
    match doResult with
    | .error de =>
        if de.deadlineExceeded then
          .error (.requestTimeout de.cause)
        else
          .error (.executionError
            ("failed to execute request to target server: " ++ de.cause))
    | .ok resp => .ok (httpResponseToDTOResponse resp duration startTime)

/-- ProcessRequest (http_proxy_service.go:143): validate the DTO, propagate
a validation error unchanged, and otherwise execute the vetted request.  The
first component records which vetted OutboundRequest (if any) was handed to
the executor; it is none exactly when validation rejected and execution was
never invoked. -/
def ProcessRequest
    (parseURL : String → Except String URL)
    (lookupIP : String → Except String (List IP))
    (mkRequestResult : Except String Unit)
    (doResult : Except DoError HTTPResponse)
    (duration startTime : Int)
    (dto : DTORequest) : Option OutboundRequest × Except ProxyError DTOResponse :=
  match (newOutboundRequest parseURL lookupIP dto).2 with
  | .error e => (none, .error e)
  | .ok outboundRequest =>
      (some outboundRequest,
        Execute mkRequestResult doResult outboundRequest duration startTime)

/-! ### Structural lemmas about the validator -/

/-- Every rejection of the validator body is classified as an invalid-input
error (it wraps ErrInvalidInput on every failing path). -/
theorem newOutboundRequestBody_error_invalidInput
    {p : String → Except String URL} {l : String → Except String (List IP)}
    {dto : DTORequest} {e : ProxyError}
    (h : (newOutboundRequestBody p l dto).2 = .error e) :
    ∃ msg, e = .invalidInput msg := by
  simp only [newOutboundRequestBody] at h
  repeat' split at h
  all_goals simp_all
  all_goals exact ⟨_, h.symm⟩

/-- Every rejection of the validator is classified as an invalid-input
error. -/
theorem newOutboundRequest_error_invalidInput
    {p : String → Except String URL} {l : String → Except String (List IP)}
    {dto : DTORequest} {e : ProxyError}
    (h : (newOutboundRequest p l dto).2 = .error e) :
    ∃ msg, e = .invalidInput msg := by
  exact newOutboundRequestBody_error_invalidInput h

/-- What a successful run of the validator body guarantees: every check on
the path to the success return passed, and the produced request is exactly
the record built on that path. -/
theorem newOutboundRequestBody_ok
    {p : String → Except String URL} {l : String → Except String (List IP)}
    {dto : DTORequest} {ob : OutboundRequest}
    (h : (newOutboundRequestBody p l dto).2 = .ok ob) :
    allowedMethods dto.Method = true ∧
    dto.URL ≠ "" ∧
    ∃ u ips,
      p dto.URL = .ok u ∧
      ¬ (u.Scheme ≠ "http" ∧ u.Scheme ≠ "https") ∧
      l u.Hostname = .ok ips ∧
      ips.any isPrivateIP = false ∧
      ob = { Method := dto.Method
             URL := u
             Headers := dto.Headers.filter
               (fun kv => ¬ blockedHeaders (canonicalHeaderKey kv.1))
             Body := dto.Body
             Timeout := if dto.Timeout ≤ 0 then defaultRequestTimeout
                        else int64Mul dto.Timeout millisecond } ∧
    (if dto.Timeout ≤ 0 then defaultRequestTimeout
     else int64Mul dto.Timeout millisecond) ≤ maxRequestTimeout := by
  simp only [newOutboundRequestBody] at h
  repeat' split at h
  all_goals simp_all
  all_goals simp only [if_neg (show ¬ dto.Timeout ≤ 0 by omega)]
  all_goals exact ⟨h.symm, by assumption⟩

/-- The validator body never writes to the DTO. -/
theorem newOutboundRequestBody_fst
    (p : String → Except String URL) (l : String → Except String (List IP))
    (dto : DTORequest) :
    (newOutboundRequestBody p l dto).1 = dto := by
  simp only [newOutboundRequestBody]
  repeat' split
  all_goals rfl

/-- Success characterization lifted to newOutboundRequest (which first
upper-cases the method in the DTO). -/
theorem newOutboundRequest_ok
    {p : String → Except String URL} {l : String → Except String (List IP)}
    {dto : DTORequest} {ob : OutboundRequest}
    (h : (newOutboundRequest p l dto).2 = .ok ob) :
    allowedMethods (stringToUpper dto.Method) = true ∧
    dto.URL ≠ "" ∧
    ∃ u ips,
      p dto.URL = .ok u ∧
      ¬ (u.Scheme ≠ "http" ∧ u.Scheme ≠ "https") ∧
      l u.Hostname = .ok ips ∧
      ips.any isPrivateIP = false ∧
      ob = { Method := stringToUpper dto.Method
             URL := u
             Headers := dto.Headers.filter
               (fun kv => ¬ blockedHeaders (canonicalHeaderKey kv.1))
             Body := dto.Body
             Timeout := if dto.Timeout ≤ 0 then defaultRequestTimeout
                        else int64Mul dto.Timeout millisecond } ∧
    (if dto.Timeout ≤ 0 then defaultRequestTimeout
     else int64Mul dto.Timeout millisecond) ≤ maxRequestTimeout := by
  simp only [newOutboundRequest] at h
  simpa using newOutboundRequestBody_ok h

/-- When no successful outcome is possible, the validator rejects with an
invalid-input error. -/
theorem newOutboundRequest_not_ok
    {p : String → Except String URL} {l : String → Except String (List IP)}
    {dto : DTORequest}
    (hnot : ∀ ob, (newOutboundRequest p l dto).2 = .ok ob → False) :
    ∃ msg, (newOutboundRequest p l dto).2 = .error (.invalidInput msg) := by
  rcases hres : (newOutboundRequest p l dto).2 with e | ob
  · obtain ⟨msg, rfl⟩ := newOutboundRequest_error_invalidInput hres
    exact ⟨msg, rfl⟩
  · exact (hnot ob hres).elim

/-! ### Concrete oracle and data fixtures -/

/-- Oracle fixture: url.Parse succeeding with scheme http at example.com. -/
def parseHTTPExample : String → Except String URL :=
  fun _ => .ok { Scheme := "http", Hostname := "example.com", Rest := "" }

/-- Oracle fixture: DNS resolving to the single public address
93.184.216.34. -/
def lookupPublic : String → Except String (List IP) :=
  fun _ => .ok [[93, 184, 216, 34]]

/-- Oracle fixture: DNS resolving to a public address first and a private
one (10.0.0.5) second. -/
def lookupMixedPrivate : String → Except String (List IP) :=
  fun _ => .ok [[8, 8, 8, 8], [10, 0, 0, 5]]

/-- A vetted-request fixture for exercising the executor. -/
def reqFixture : OutboundRequest :=
  { Method := "GET", URL := { Scheme := "http", Hostname := "example.com", Rest := "" },
    Headers := [], Body := [], Timeout := 5000000000 }

/-- DTO fixture with a mixed-case blocked header and an ordinary header. -/
def dtoHeadersFixture : DTORequest :=
  { Method := "post", URL := "http://example.com",
    Headers := [("aUtHoRiZaTiOn", ["Bearer x"]), ("Content-Type", ["application/json"])],
    Body := [], Timeout := 5000 }

/-- The vetted request the validator produces from dtoHeadersFixture. -/
def obHeadersFixture : OutboundRequest :=
  { Method := "POST", URL := { Scheme := "http", Hostname := "example.com", Rest := "" },
    Headers := [("Content-Type", ["application/json"])],
    Body := [], Timeout := 5000000000 }

/-! ### Claim theorems -/

/-- C1: if the URL's hostname resolves to a set of addresses of which any
one (not only the first) is loopback, link-local, or in 10.0.0.0/8,
172.16.0.0/12 or 192.168.0.0/16, the validator returns an input error, no
matter how many other addresses the hostname resolves to. -/
theorem validate_rejects_private_resolution
    (p : String → Except String URL) (l : String → Except String (List IP))
    (dto : DTORequest) (u : URL) (ips : List IP) (ip : IP)
    (hp : p dto.URL = .ok u) (hl : l u.Hostname = .ok ips)
    (hip : ip ∈ ips) (hpriv : isPrivateIP ip = true) :
    ∃ msg, (newOutboundRequest p l dto).2 = .error (.invalidInput msg) := by
  apply newOutboundRequest_not_ok
  intro ob hob
  obtain ⟨-, -, u', ips', hp', -, hl', hany, -⟩ := newOutboundRequest_ok hob
  rw [hp] at hp'
  cases hp'
  rw [hl] at hl'
  cases hl'
  rw [List.any_eq_false] at hany
  exact absurd hpriv (by simpa using hany ip hip)

/-- Witness for C1: a hostname resolving to a public address and then the
private 10.0.0.5 is rejected. -/
theorem validate_rejects_private_resolution_witness :
    ∃ msg, (newOutboundRequest parseHTTPExample lookupMixedPrivate
      { Method := "GET", URL := "http://example.com", Headers := [], Body := [],
        Timeout := 0 }).2 = .error (.invalidInput msg) :=
  validate_rejects_private_resolution parseHTTPExample lookupMixedPrivate
    { Method := "GET", URL := "http://example.com", Headers := [], Body := [], Timeout := 0 }
    { Scheme := "http", Hostname := "example.com", Rest := "" }
    [[8, 8, 8, 8], [10, 0, 0, 5]] [10, 0, 0, 5]
    rfl rfl (by decide) (by decide)

/-- C2: ProcessRequest invokes the executor only on a vetted OutboundRequest
produced by the validator.  When any validator check fails, the classified
input error is returned unchanged, no outbound request is constructed and no
executor step runs — the outcome is the same for every executor oracle. -/
theorem processRequest_validator_gates_executor
    (p : String → Except String URL) (l : String → Except String (List IP))
    (mk : Except String Unit) (d : Except DoError HTTPResponse)
    (dur ts : Int) (dto : DTORequest) :
    (∀ e, (newOutboundRequest p l dto).2 = .error e →
        ProcessRequest p l mk d dur ts dto = (none, .error e) ∧
        ∃ msg, e = .invalidInput msg) ∧
    (∀ ob, (newOutboundRequest p l dto).2 = .ok ob →
        ProcessRequest p l mk d dur ts dto =
          (some ob, Execute mk d ob dur ts)) := by
  constructor
  · intro e he
    refine ⟨?_, newOutboundRequest_error_invalidInput he⟩
    simp only [ProcessRequest, he]
  · intro ob hob
    simp only [ProcessRequest, hob]

/-- Witness for C2: a disallowed method short-circuits ProcessRequest with
the validator's input error and no executor step. -/
theorem processRequest_validator_gates_executor_witness :
    ProcessRequest parseHTTPExample lookupPublic (.ok ()) (.error ⟨false, "x"⟩) 1 2
      { Method := "TRACE", URL := "http://example.com", Headers := [], Body := [],
        Timeout := 0 }
      = (none, .error (.invalidInput "invalid or unsupported HTTP method: TRACE")) :=
  ((processRequest_validator_gates_executor parseHTTPExample lookupPublic
      (.ok ()) (.error ⟨false, "x"⟩) 1 2
      { Method := "TRACE", URL := "http://example.com", Headers := [], Body := [],
        Timeout := 0 }).1
    (.invalidInput "invalid or unsupported HTTP method: TRACE") rfl).1

/-- C5: the vetted request contains no header whose canonical
(case-insensitive) name is in the blocked set, every vetted header comes from
the caller, and every caller header whose canonical name is not blocked is
passed through with its name and ordered value sequence unchanged. -/
theorem validate_filters_blocked_headers
    (p : String → Except String URL) (l : String → Except String (List IP))
    (dto : DTORequest) (ob : OutboundRequest)
    (h : (newOutboundRequest p l dto).2 = .ok ob) :
    (∀ kv ∈ ob.Headers, blockedHeaders (canonicalHeaderKey kv.1) = false) ∧
    (∀ kv ∈ ob.Headers, kv ∈ dto.Headers) ∧
    (∀ kv ∈ dto.Headers, blockedHeaders (canonicalHeaderKey kv.1) = false →
      kv ∈ ob.Headers) := by
  obtain ⟨-, -, u, ips, -, -, -, -, hob, -⟩ := newOutboundRequest_ok h
  subst hob
  refine ⟨?_, ?_, ?_⟩ <;> intro kv hkv
  · have := (List.mem_filter.mp hkv).2
    simpa using this
  · exact (List.mem_filter.mp hkv).1
  · intro hnb
    exact List.mem_filter.mpr ⟨hkv, by simpa using hnb⟩

/-- Witness for C5: a mixed-case Authorization header is dropped while
Content-Type passes through unchanged. -/
theorem validate_filters_blocked_headers_witness :
    (newOutboundRequest parseHTTPExample lookupPublic dtoHeadersFixture).2 =
        .ok obHeadersFixture ∧
    (∀ kv ∈ obHeadersFixture.Headers,
        blockedHeaders (canonicalHeaderKey kv.1) = false) ∧
    ("Content-Type", ["application/json"]) ∈ obHeadersFixture.Headers :=
  ⟨rfl,
   (validate_filters_blocked_headers parseHTTPExample lookupPublic
      dtoHeadersFixture obHeadersFixture rfl).1,
   (validate_filters_blocked_headers parseHTTPExample lookupPublic
      dtoHeadersFixture obHeadersFixture rfl).2.2
     ("Content-Type", ["application/json"]) (by decide) (by decide)⟩

/-- C7: validation is insensitive to the case of the method string, the
method check rejects exactly when the upper-cased method is outside the
allow-list, and an accepted request carries the upper-cased canonical
method. -/
theorem validate_method_case_insensitive
    (p : String → Except String URL) (l : String → Except String (List IP))
    (dto : DTORequest) :
    (∀ m1 m2, stringToUpper m1 = stringToUpper m2 →
        newOutboundRequest p l { dto with Method := m1 } =
        newOutboundRequest p l { dto with Method := m2 }) ∧
    (allowedMethods (stringToUpper dto.Method) = false →
        ∃ msg, (newOutboundRequest p l dto).2 = .error (.invalidInput msg)) ∧
    (∀ ob, (newOutboundRequest p l dto).2 = .ok ob →
        allowedMethods ob.Method = true ∧ ob.Method = stringToUpper dto.Method) := by
  refine ⟨?_, ?_, ?_⟩
  · intro m1 m2 hm
    simp only [newOutboundRequest]
    congr 1
    simp [hm]
  · intro hbad
    apply newOutboundRequest_not_ok
    intro ob hob
    obtain ⟨hall, -⟩ := newOutboundRequest_ok hob
    rw [hall] at hbad
    cases hbad
  · intro ob hob
    obtain ⟨hall, -, u, ips, -, -, -, -, hob2, -⟩ := newOutboundRequest_ok hob
    subst hob2
    exact ⟨hall, rfl⟩

/-- Witness for C7: methods "get" and "GET" validate identically. -/
theorem validate_method_case_insensitive_witness :
    newOutboundRequest parseHTTPExample lookupPublic
      { Method := "get", URL := "http://example.com", Headers := [], Body := [],
        Timeout := 0 } =
    newOutboundRequest parseHTTPExample lookupPublic
      { Method := "GET", URL := "http://example.com", Headers := [], Body := [],
        Timeout := 0 } :=
  (validate_method_case_insensitive parseHTTPExample lookupPublic
      { Method := "x", URL := "http://example.com", Headers := [], Body := [],
        Timeout := 0 }).1
    "get" "GET" (by decide)

/-- C8: an empty URL, a URL that fails to parse, and a URL whose scheme is
neither http nor https are each rejected with an input error, so no vetted
request is produced. -/
theorem validate_rejects_bad_url
    (p : String → Except String URL) (l : String → Except String (List IP))
    (dto : DTORequest) :
    (dto.URL = "" →
        ∃ msg, (newOutboundRequest p l dto).2 = .error (.invalidInput msg)) ∧
    (∀ e, p dto.URL = .error e →
        ∃ msg, (newOutboundRequest p l dto).2 = .error (.invalidInput msg)) ∧
    (∀ u, p dto.URL = .ok u → u.Scheme ≠ "http" → u.Scheme ≠ "https" →
        ∃ msg, (newOutboundRequest p l dto).2 = .error (.invalidInput msg)) := by
  refine ⟨?_, ?_, ?_⟩
  · intro hempty
    apply newOutboundRequest_not_ok
    intro ob hob
    obtain ⟨-, hne, -⟩ := newOutboundRequest_ok hob
    exact hne hempty
  · intro e he
    apply newOutboundRequest_not_ok
    intro ob hob
    obtain ⟨-, -, u, ips, hp, -⟩ := newOutboundRequest_ok hob
    rw [he] at hp
    cases hp
  · intro u hu hs1 hs2
    apply newOutboundRequest_not_ok
    intro ob hob
    obtain ⟨-, -, u', ips, hp, hscheme, -⟩ := newOutboundRequest_ok hob
    rw [hu] at hp
    cases hp
    exact hscheme ⟨hs1, hs2⟩

/-- Witness for C8: an ftp URL is rejected with an input error. -/
theorem validate_rejects_bad_url_witness :
    ∃ msg, (newOutboundRequest
      (fun _ => .ok { Scheme := "ftp", Hostname := "example.com", Rest := "" })
      lookupPublic
      { Method := "GET", URL := "ftp://example.com", Headers := [], Body := [],
        Timeout := 0 }).2 = .error (.invalidInput msg) :=
  (validate_rejects_bad_url
      (fun _ => .ok { Scheme := "ftp", Hostname := "example.com", Rest := "" })
      lookupPublic
      { Method := "GET", URL := "ftp://example.com", Headers := [], Body := [],
        Timeout := 0 }).2.2
    { Scheme := "ftp", Hostname := "example.com", Rest := "" }
    rfl (by decide) (by decide)

/-- C9 counterexample: the validator mutates the caller-supplied DTO through
its pointer — after a call with method "get" the DTO's method reads "GET",
so the DTO is not left equal to its value at entry. -/
theorem validate_mutates_dto_counterexample :
    (newOutboundRequest parseHTTPExample lookupPublic
      { Method := "get", URL := "http://example.com", Headers := [], Body := [],
        Timeout := 1000 }).1 ≠
    { Method := "get", URL := "http://example.com", Headers := [], Body := [],
      Timeout := 1000 } := by
  decide

/-- C9 (amended): whether it accepts or rejects, the validator leaves the
DTO's url, headers, body and timeout unchanged, and overwrites only the
method field with its upper-cased form (a no-op when the method is already
upper-case). -/
theorem validate_frame_upcases_method_only
    (p : String → Except String URL) (l : String → Except String (List IP))
    (dto : DTORequest) :
    (newOutboundRequest p l dto).1 = { dto with Method := stringToUpper dto.Method } := by
  simp only [newOutboundRequest]
  exact newOutboundRequestBody_fst p l _

/-- Witness for the amended C9: a DTO entering with method "get" leaves the
call with method "GET" and every other field unchanged. -/
theorem validate_frame_upcases_method_only_witness :
    (newOutboundRequest parseHTTPExample lookupPublic
      { Method := "get", URL := "http://example.com", Headers := [], Body := [],
        Timeout := 1000 }).1 =
    { Method := "GET", URL := "http://example.com", Headers := [], Body := [],
      Timeout := 1000 } := by
  have h := validate_frame_upcases_method_only parseHTTPExample lookupPublic
    { Method := "get", URL := "http://example.com", Headers := [], Body := [],
      Timeout := 1000 }
  rw [h]
  decide

/-- C3: when the target's body holds strictly more than 10 MiB, Execute
returns a success (not a failure) whose size is exactly the maximum, whose
body is the first 10485760 bytes, whose status code and headers are
populated from the response, and whose error field carries a non-empty
truncation notice. -/
theorem execute_truncates_oversized_body
    (resp : HTTPResponse) (req : OutboundRequest) (dur ts : Int)
    (hlen : maxResponseBodySize < resp.Body.data.length) :
    Execute (.ok ()) (.ok resp) req dur ts =
      .ok { StatusCode := resp.StatusCode
            Duration := dur
            Timestamp := ts
            Size := (maxResponseBodySize : Int)
            Headers := resp.Headers
            Body := resp.Body.data.take maxResponseBodySize
            Error := "response body truncated due to size limit" } ∧
    "response body truncated due to size limit" ≠ "" := by
  refine ⟨?_, by simp⟩
  simp only [Execute, httpResponseToDTOResponse, readAllLimited]
  rw [if_pos (le_of_lt hlen)]
  simp [List.length_take, Nat.min_eq_left (le_of_lt hlen)]

/-- Fixture: a response whose body is one byte longer than the cap. -/
def respOversized : HTTPResponse :=
  { StatusCode := 200
    Headers := [("Content-Type", ["text/plain"])]
    Body := { data := List.replicate (maxResponseBodySize + 1) 7, readErr := none } }

/-- Witness for C3: a 10485761-byte body comes back truncated to 10485760
bytes with the truncation notice, as a success. -/
theorem execute_truncates_oversized_body_witness :
    Execute (.ok ()) (.ok respOversized) reqFixture 5 100 =
      .ok { StatusCode := 200
            Duration := 5
            Timestamp := 100
            Size := (maxResponseBodySize : Int)
            Headers := [("Content-Type", ["text/plain"])]
            Body := List.replicate maxResponseBodySize 7
            Error := "response body truncated due to size limit" } := by
  have h := (execute_truncates_oversized_body respOversized reqFixture 5 100
    (by simp [respOversized])).1
  rw [h]
  simp [respOversized, List.take_replicate, Nat.min_eq_left (Nat.le_succ _)]

/-- C10: when the body is exactly 10485760 bytes, Execute still returns the
complete body with size 10485760 and the truncation notice in the error
field, even though no bytes were discarded: the flag fires whenever the cap
is reached, not only when bytes beyond the cap exist. -/
theorem execute_flags_truncation_at_exact_limit
    (resp : HTTPResponse) (req : OutboundRequest) (dur ts : Int)
    (hlen : resp.Body.data.length = maxResponseBodySize) :
    Execute (.ok ()) (.ok resp) req dur ts =
      .ok { StatusCode := resp.StatusCode
            Duration := dur
            Timestamp := ts
            Size := (maxResponseBodySize : Int)
            Headers := resp.Headers
            Body := resp.Body.data
            Error := "response body truncated due to size limit" } ∧
    "response body truncated due to size limit" ≠ "" := by
  refine ⟨?_, by simp⟩
  simp only [Execute, httpResponseToDTOResponse, readAllLimited]
  rw [if_pos (le_of_eq hlen.symm)]
  rw [List.take_of_length_le (le_of_eq hlen)]
  simp [hlen]

/-- Fixture: a response whose body is exactly the cap. -/
def respExactMax : HTTPResponse :=
  { StatusCode := 200
    Headers := []
    Body := { data := List.replicate maxResponseBodySize 3, readErr := none } }

/-- Witness for C10: an exactly-10485760-byte body is returned whole, with
the truncation notice set. -/
theorem execute_flags_truncation_at_exact_limit_witness :
    Execute (.ok ()) (.ok respExactMax) reqFixture 5 100 =
      .ok { StatusCode := 200
            Duration := 5
            Timestamp := 100
            Size := (maxResponseBodySize : Int)
            Headers := []
            Body := List.replicate maxResponseBodySize 3
            Error := "response body truncated due to size limit" } :=
  (execute_flags_truncation_at_exact_limit respExactMax reqFixture 5 100
    (by simp [respExactMax])).1

/-- C4: a deadline-exceeded failure of the outbound call is classified as a
request-timeout error, every other network-level failure as a generic
execution error whose message preserves the original cause, and the two
classifications are distinguishable. -/
theorem execute_classifies_timeout_vs_generic_failure
    (req : OutboundRequest) (dur ts : Int) (de : DoError) :
    (de.deadlineExceeded = true →
        Execute (.ok ()) (.error de) req dur ts =
          .error (.requestTimeout de.cause)) ∧
    (de.deadlineExceeded = false →
        Execute (.ok ()) (.error de) req dur ts =
          .error (.executionError
            ("failed to execute request to target server: " ++ de.cause))) ∧
    (∀ m1 m2 : String, ProxyError.requestTimeout m1 ≠ ProxyError.executionError m2) := by
  refine ⟨?_, ?_, fun m1 m2 h => ProxyError.noConfusion h⟩
  · intro h
    simp [Execute, h]
  · intro h
    simp [Execute, h]

/-- Witness for C4: a deadline-exceeded failure yields the timeout
classification. -/
theorem execute_classifies_timeout_vs_generic_failure_witness :
    Execute (.ok ())
        (.error { deadlineExceeded := true, cause := "context deadline exceeded" })
        reqFixture 5 100 =
      .error (.requestTimeout "context deadline exceeded") :=
  (execute_classifies_timeout_vs_generic_failure reqFixture 5 100
      { deadlineExceeded := true, cause := "context deadline exceeded" }).1 rfl

/-- C6 (code bug): a requested timeout of 9223372036855 ms is far above the
90000 ms ceiling, yet the validator accepts it: the Go computation
time.Duration(timeout) * time.Millisecond overflows int64 to the negative
value -9223372036854551616 ns, which passes the `timeout > maxRequestTimeout`
check, so no input error is returned. -/
theorem validate_timeout_overflow_accepts :
    (90000 : Int) < 9223372036855 ∧
    (newOutboundRequest parseHTTPExample lookupPublic
        { Method := "GET", URL := "http://example.com", Headers := [], Body := [],
          Timeout := 9223372036855 }).2 =
      .ok { Method := "GET"
            URL := { Scheme := "http", Hostname := "example.com", Rest := "" }
            Headers := []
            Body := []
            Timeout := -9223372036854551616 } ∧
    (-9223372036854551616 : Int) < 0 :=
  ⟨by decide, rfl, by decide⟩

end Suar
